import Mathlib

/-!
Shallow embedding of the connection/discovery/delivery core of the
OPMW-Potassium Electron app (src/main.js).  The core consists of:

* `PORTS` — the fixed candidate port list (main.js line 9);
* `compressData` — the payload encoder wrapping zlib deflate (lines 72-80);
* `promiseTimeout` — the timeout race (lines 89-103);
* `_connectAndSendInternal` — the socket session (lines 113-158);
* the `check-port-status` IPC handler — the port liveness probe (lines 173-196);
* the `auto-attach` IPC handler — the autodiscovery scanner (lines 202-216).

The asynchronous socket behaviour is embedded by passing an explicit
environment describing which socket events fire and when (milliseconds as
`Nat`); each modelled operation is a pure total function from that
environment to a trace recording the resolved value, the resolve time and
the observable side effects (encoder invocation, bytes written, socket
destruction, console logs).
-/

/-- The fixed candidate port list (main.js line 9):
`const PORTS = ["8392", ..., "8397"]`. -/
def PORTS : List String := ["8392", "8393", "8394", "8395", "8396", "8397"]

/-! ## Payload encoder -/

/-- Two little-endian bytes of a 16-bit value. -/
def toLE16 (n : Nat) : List Nat := [n % 256, n / 256 % 256]

/-- Modelled from the spec: the DEFLATE codec itself lives in zlib, outside
the repository's files; `compressData` (main.js line 74) only awaits
`zlib.deflate`.  The codec is modelled as a DEFLATE encoder restricted to
stored (uncompressed) blocks — a legal, byte-for-byte deterministic DEFLATE
output mode: each block is one header byte (BFINAL flag, BTYPE=00), a
16-bit little-endian length LEN, its one's complement NLEN, and the raw
bytes; input beyond 65535 bytes is split into further blocks. -/
def deflateStoredAux : Nat → List Nat → List Nat
  | 0, l => 1 :: (toLE16 l.length ++ (toLE16 (65535 - l.length) ++ l))
  | fuel + 1, l =>
    if l.length ≤ 65535 then
      1 :: (toLE16 l.length ++ (toLE16 (65535 - l.length) ++ l))
    else
      0 :: (toLE16 65535 ++ (toLE16 0 ++
        (l.take 65535 ++ deflateStoredAux fuel (l.drop 65535))))

/-- Modelled from the spec: the stored-block encoder at its adequate fuel
(the recursion consumes at least 65535 bytes per step, so `l.length` steps
always suffice). -/
def deflateStored (l : List Nat) : List Nat :=
  deflateStoredAux l.length l

/-- Modelled from the spec: the inverse (inflate) direction of the stored
block codec, parsing block by block and checking the NLEN complement;
`fuel` bounds the number of blocks. -/
def inflateStoredAux : Nat → List Nat → Option (List Nat)
  | 0, _ => none
  | fuel + 1, s =>
    match s with
    | b :: l1 :: l2 :: n1 :: n2 :: rest =>
      if n1 + 256 * n2 = 65535 - (l1 + 256 * l2) ∧
          l1 + 256 * l2 ≤ rest.length then
        if b = 1 then
          if rest.length = l1 + 256 * l2 then
            some (rest.take (l1 + 256 * l2))
          else none
        else
          match inflateStoredAux fuel (rest.drop (l1 + 256 * l2)) with
          | some tl => some (rest.take (l1 + 256 * l2) ++ tl)
          | none => none
      else none
    | _ => none

/-- Inflate at its adequate fuel: a valid stream holds at most
`s.length` blocks. -/
def inflateStored (s : List Nat) : Option (List Nat) :=
  inflateStoredAux s.length s

/-- Standard UTF-8 encoding of one code point, modelling what
`Buffer.from(code, 'utf8')` (main.js line 139) does to each character. -/
def utf8EncodeCodepoint (c : Nat) : List Nat :=
  if c < 128 then [c]
  else if c < 2048 then [192 + c / 64, 128 + c % 64]
  else if c < 65536 then [224 + c / 4096, 128 + c / 64 % 64, 128 + c % 64]
  else [240 + c / 262144, 128 + c / 4096 % 64, 128 + c / 64 % 64, 128 + c % 64]

/-- The UTF-8 bytes of a string (`Buffer.from(code, 'utf8')`). -/
def utf8Bytes (s : String) : List Nat :=
  s.data.foldr (fun c r => utf8EncodeCodepoint c.toNat ++ r) []

/-- The `compressData` wrapper (main.js lines 72-80): on success it returns
the deflated bytes; if the codec reports an error `e` it rethrows
`Compression failed: e`.  The codec's own failure possibility is an
environment input (`codecError`). -/
def compressData (data : List Nat) (codecError : Option String) :
    Except String (List Nat) :=
  match codecError with
  | some e => Except.error ("Compression failed: " ++ e)
  | none => Except.ok (deflateStored data)

/-! ## Timeout race -/

/-- Observable trace of one `promiseTimeout` invocation: the settled value
of the race, the time at which it settled, and when the pending timer's
callback fires (`none` would mean it was cleared before firing — the source
only ever calls `clearTimeout` inside the timer's own callback, main.js
line 93, so the callback always fires at `ms`). -/
structure RaceTrace (α : Type) where
  outcome : Except String α
  settleTime : Nat
  timerFiresAt : Option Nat
deriving Repr

/-- The `promiseTimeout` race (main.js lines 89-103): the wrapped operation
is given as its settle time and settled value `inner`; the race settles
with whichever side finishes first.  `tieTimerFirst` resolves the
indeterminate simultaneous case (both sides at exactly `ms`) — `true` means
the timer's rejection is the one observed. -/
def promiseTimeout {α : Type} (inner : Nat × Except String α) (ms : Nat)
    (errorMessage : String) (tieTimerFirst : Bool) : RaceTrace α :=
  if inner.1 < ms ∨ (inner.1 = ms ∧ tieTimerFirst = false) then
    { outcome := inner.2, settleTime := inner.1, timerFiresAt := some ms }
  else
    { outcome := Except.error errorMessage, settleTime := ms,
      timerFiresAt := some ms }

/-- Whether the timer is still pending (armed, not yet fired) after the
race has settled. -/
def timerPendingAfterSettle {α : Type} (r : RaceTrace α) : Bool :=
  match r.timerFiresAt with
  | some t => decide (r.settleTime < t)
  | none => false

/-! ## Socket session -/

/-- What the TCP connect attempt does in a given run: the `connect`
callback fires at time `t`, or the socket emits `error` at time `t` with
message `msg`, or nothing ever happens (no listener, no RST — only the
timeouts can end the wait). -/
inductive ConnectEvent : Type
  | connected (t : Nat)
  | errored (t : Nat) (msg : String)
  | silent
deriving DecidableEq, Repr

/-- Environment of one socket session: the connect attempt's behaviour, the
tie break when the race timer and a socket-side event land on the same
instant, whether the zlib codec fails, and how long the write callback
would take to fire on its own. -/
structure SessionEnv : Type where
  connect : ConnectEvent
  tieTimerFirst : Bool
  codecError : Option String
  flushDelay : Nat
deriving DecidableEq, Repr

/-- The message of the socket's own idle-timeout rejection
(main.js line 134). -/
def socketTimeoutMsg (port : String) : String :=
  "Connection attempt to port " ++ port ++ " timed out."

/-- The message passed to `promiseTimeout` for the race timer
(main.js line 136). -/
def raceTimeoutMsg (port : String) : String :=
  "Connection to port " ++ port ++ " timed out"

/-- Settling of the inner connect promise (main.js lines 120-135): the
`connect` callback resolves it; the `error` handler destroys the socket and
rejects with the error; the socket's own timeout (armed at 3000 ms, line
131) destroys the socket and rejects after 3000 ms of silence, so the inner
promise never settles later than 3000 ms. -/
def innerConnect (port : String) (e : ConnectEvent) :
    Nat × Except String Unit :=
  match e with
  | ConnectEvent.connected t =>
      if t < 3000 then (t, Except.ok ())
      else (3000, Except.error (socketTimeoutMsg port))
  | ConnectEvent.errored t msg =>
      if t < 3000 then (t, Except.error msg)
      else (3000, Except.error (socketTimeoutMsg port))
  | ConnectEvent.silent => (3000, Except.error (socketTimeoutMsg port))

/-- JS truthiness test `code && code !== "NULL"` (main.js line 138): `none`
models an absent (`undefined`/`null`) code value, `some ""` the falsy empty
string. -/
def isRealPayload : Option String → Bool
  | none => false
  | some s => !(s == "") && !(s == "NULL")

/-- Observable trace of one socket session: the string the promise resolves
with, the resolve time, whether the payload encoder ran, the bytes written
to the socket (if any), whether `destroy()` ran before the resolve, and the
console log lines of the send path. -/
structure SessionTrace : Type where
  report : String
  time : Nat
  encoderInvoked : Bool
  bytesWritten : Option (List Nat)
  destroyedBeforeResolve : Bool
  logs : List String
deriving DecidableEq, Repr

/-- The socket session `_connectAndSendInternal` (main.js lines 113-158).
The connect phase is the `promiseTimeout` race at 3000 ms over
`innerConnect`.  On a rejection the `catch` block destroys the socket and
resolves the failure report (lines 152-156).  After a successful connect:
a real payload is UTF-8 encoded, compressed, and written — the write
callback (line 142) logs the byte count, ends the socket and resolves the
success report; the callback's wait is capped by the socket's 3000 ms idle
timeout, whose `destroy` causes Node to invoke the pending write callback
(with an error argument the source ignores), hence `min flushDelay 3000`.
A compression failure lands in the same `catch`.  The sentinel path (line
147-149) ends the socket and resolves without encoding or writing.  Every
control path calls `resolve` — the executor captures no `reject`. -/
def sessionAfterRace (code : Option String) (port : String)
    (env : SessionEnv) (r : RaceTrace Unit) : SessionTrace :=
    match r.outcome with
    | Except.error e =>
        { report := "Failed to connect or send on port " ++ port ++ ": " ++ e
          time := r.settleTime
          encoderInvoked := false
          bytesWritten := none
          destroyedBeforeResolve := true
          logs := [] }
    | Except.ok _ =>
        if isRealPayload code then
          match compressData (utf8Bytes (code.getD "")) env.codecError with
          | Except.error e =>
              { report :=
                  "Failed to connect or send on port " ++ port ++ ": " ++ e
                time := r.settleTime
                encoderInvoked := true
                bytesWritten := none
                destroyedBeforeResolve := true
                logs := [] }
          | Except.ok compressed =>
              { report := "Successfully executed script on port: " ++ port
                time := r.settleTime + min env.flushDelay 3000
                encoderInvoked := true
                bytesWritten := some compressed
                destroyedBeforeResolve := false
                logs := ["Script sent to port " ++ port ++ " (" ++
                  toString compressed.length ++ " bytes)"] }
        else
          { report := "Successfully connected to Opiumware on port: " ++
              port ++ " (no script sent)"
            time := r.settleTime
            encoderInvoked := false
            bytesWritten := none
            destroyedBeforeResolve := false
            logs := [] }

/-- The socket session entry point: run the connect race, then the
continuation. -/
def connectAndSendInternal (code : Option String) (port : String)
    (env : SessionEnv) : SessionTrace :=
  sessionAfterRace code port env
    (promiseTimeout (innerConnect port env.connect) 3000
      (raceTimeoutMsg port) env.tieTimerFirst)

/-- The error message a session fails with, if it fails: the rejection of
the connect race, or the rethrown compression failure.  `none` means the
session resolves a success report. -/
def underlyingError (code : Option String) (port : String)
    (env : SessionEnv) : Option String :=
  match (promiseTimeout (innerConnect port env.connect) 3000
      (raceTimeoutMsg port) env.tieTimerFirst).outcome with
  | Except.error e => some e
  | Except.ok _ =>
      if isRealPayload code then
        match env.codecError with
        | some e => some ("Compression failed: " ++ e)
        | none => none
      else none

/-! ## String helpers (models of the JS string methods used) -/

/-- Model of `String.prototype.startsWith` on character lists. -/
def strStarts : List Char → List Char → Bool
  | [], _ => true
  | _ :: _, [] => false
  | a :: ps, b :: ss => a == b && strStarts ps ss

/-- Substring containment on character lists. -/
def strContains : List Char → List Char → Bool
  | [], sub => sub.isEmpty
  | c :: t, sub => strStarts sub (c :: t) || strContains t sub

/-- The auto-attach success test `result.startsWith('Successfully
connected')` (main.js line 208). -/
def successfullyConnected (r : String) : Bool :=
  strStarts "Successfully connected".toList r.toList

/-! ## Autodiscovery scanner -/

/-- One auto-attach attempt on one port (main.js lines 207-208): run the
socket session with the `"NULL"` sentinel code and test whether the report
starts with `Successfully connected`. -/
def attemptOk (env : String → SessionEnv) (p : String) : Bool :=
  successfullyConnected (connectAndSendInternal (some "NULL") p (env p)).report

/-- The loop body of the `auto-attach` handler (main.js lines 203-214) over
an explicit port list, also recording which ports were attempted, in order.
The first attempt whose report starts with `Successfully connected`
short-circuits the scan. -/
def autoAttachGo (env : String → SessionEnv) : List String → String × List String
  | [] => ("Failed to connect on all ports", [])
  | p :: rest =>
      if attemptOk env p then
        (p, [p])
      else
        ((autoAttachGo env rest).1, p :: (autoAttachGo env rest).2)

/-- The `auto-attach` handler (main.js lines 202-216): scan `PORTS`. -/
def autoAttach (env : String → SessionEnv) : String × List String :=
  autoAttachGo env PORTS

/-! ## Port liveness probe -/

/-- Socket events a probe can observe: `connected` (the `connect` event),
`errored` (the `error` event with its message), `idleTimeout` (the socket's
own `timeout` event). -/
inductive ProbeEv : Type
  | connected
  | errored (msg : String)
  | idleTimeout
deriving DecidableEq, Repr

/-- The boolean each probe handler resolves with (main.js lines 178-191):
`connect` resolves `true`, `error` and `timeout` resolve `false`. -/
def verdict : ProbeEv → Bool
  | ProbeEv.connected => true
  | ProbeEv.errored _ => false
  | ProbeEv.idleTimeout => false

/-- Observable trace of one `check-port-status` invocation. -/
structure ProbeTrace : Type where
  result : Bool
  time : Nat
  destroyedBeforeResolve : Bool
deriving DecidableEq, Repr

/-- The `check-port-status` handler (main.js lines 173-196): the events the
socket emits, time-tagged and in temporal order, decide the promise.  The
first event inside the 1000 ms budget settles it (each handler destroys the
socket and resolves); if no event lands inside the budget the socket's own
1000 ms idle timeout (line 194) destroys the socket and resolves `false`. -/
def checkPortStatus (events : List (Nat × ProbeEv)) : ProbeTrace :=
  match events.find? (fun e => decide (e.1 < 1000)) with
  | some (t, e) =>
      { result := verdict e, time := t, destroyedBeforeResolve := true }
  | none => { result := false, time := 1000, destroyedBeforeResolve := true }

/-- The handler wiring of `check-port-status` at the resolve-call level:
each of the three handlers is registered with `once` (main.js lines
178-191), so it fires on the first event of its kind only; each firing
destroys the socket and calls `resolve` with its verdict.  Arguments
`c`, `er`, `t` say which handlers are still armed; the result is the list
of `resolve` invocations in order — the promise settles with the first. -/
def onceCalls : List ProbeEv → Bool → Bool → Bool → List Bool
  | [], _, _, _ => []
  | ProbeEv.connected :: rest, c, er, t =>
      (if c then [true] else []) ++ onceCalls rest false er t
  | ProbeEv.errored _ :: rest, c, er, t =>
      (if er then [false] else []) ++ onceCalls rest c false t
  | ProbeEv.idleTimeout :: rest, c, er, t =>
      (if t then [false] else []) ++ onceCalls rest c er false

/-! ## Codec lemmas -/

/-- Every stored-block stream is at least five bytes longer than its
payload. -/
theorem deflateStoredAux_length (n : Nat) :
    ∀ l : List Nat, l.length + 5 ≤ (deflateStoredAux n l).length := by
  induction n with
  | zero =>
    intro l
    simp [deflateStoredAux, toLE16]
  | succ n ih =>
    intro l
    by_cases h : l.length ≤ 65535
    · simp [deflateStoredAux, h, toLE16]
    · have h2 := ih (l.drop 65535)
      simp only [deflateStoredAux, if_neg h, toLE16, List.length_cons,
        List.length_append, List.length_take, List.length_drop] at *
      omega

/-- Round trip of the stored-block codec at explicit fuels. -/
theorem inflate_deflateAux (n : Nat) :
    ∀ (l : List Nat), l.length ≤ n → ∀ m, l.length + 1 ≤ m →
    inflateStoredAux m (deflateStoredAux n l) = some l := by
  induction n with
  | zero =>
    intro l hl m hm
    match m with
    | m + 1 =>
      have hnil : l = [] := List.eq_nil_of_length_eq_zero (Nat.le_zero.mp hl)
      subst hnil
      simp [deflateStoredAux, inflateStoredAux, toLE16]
  | succ n ih =>
    intro l hl m hm
    match m with
    | m + 1 =>
      by_cases h : l.length ≤ 65535
      · rw [deflateStoredAux, if_pos h]
        simp only [toLE16, List.cons_append, List.nil_append]
        rw [inflateStoredAux]
        rw [show l.length % 256 + 256 * (l.length / 256 % 256) = l.length from by
          omega]
        rw [if_pos ⟨by omega, le_refl _⟩]
        rw [if_pos rfl, if_pos rfl, List.take_length]
      · rw [deflateStoredAux, if_neg h]
        simp only [toLE16, List.cons_append, List.nil_append]
        rw [inflateStoredAux]
        have htl : (l.take 65535).length = 65535 := by
          simp [List.length_take]; omega
        norm_num
        refine ⟨by omega, ?_⟩
        rw [List.drop_left' htl, List.take_left' htl]
        rw [ih (l.drop 65535) (by simp [List.length_drop]; omega) m
          (by simp [List.length_drop]; omega)]
        simp [List.take_append_drop]

/-- Inflating a deflated payload recovers it exactly. -/
theorem inflateStored_deflateStored (l : List Nat) :
    inflateStored (deflateStored l) = some l := by
  have hlen := deflateStoredAux_length l.length l
  unfold inflateStored deflateStored
  exact inflate_deflateAux l.length l (le_refl _)
    (deflateStoredAux l.length l).length (by omega)

/-- C4: for every input byte sequence P the payload encoder is
deterministic — `compressData` on P (with a healthy codec) always produces
the one value `deflateStored (P)`, so compressing twice yields identical
bytes — and inflating the encoder's output yields exactly P. -/
theorem compressRoundTrip (P : List Nat) :
    compressData P none = Except.ok (deflateStored P) ∧
    compressData P none = compressData P none ∧
    inflateStored (deflateStored P) = some P :=
  ⟨rfl, rfl, inflateStored_deflateStored P⟩

/-! ## Race and session lemmas -/

/-- The race settles no later than the later of its two sides. -/
theorem promiseTimeout_settleTime_le {α : Type} (inner : Nat × Except String α)
    (ms : Nat) (msg : String) (tie : Bool) :
    (promiseTimeout inner ms msg tie).settleTime ≤ max inner.1 ms := by
  unfold promiseTimeout
  split <;> simp

/-- The inner connect promise settles within the 3000 ms budget. -/
theorem innerConnect_time_le (port : String) (e : ConnectEvent) :
    (innerConnect port e).1 ≤ 3000 := by
  unfold innerConnect
  cases e <;> simp <;> split <;> simp <;> omega

/-- The connect race settles within the 3000 ms budget. -/
theorem connectRace_settleTime_le (port : String) (env : SessionEnv) :
    (promiseTimeout (innerConnect port env.connect) 3000
      (raceTimeoutMsg port) env.tieTimerFirst).settleTime ≤ 3000 := by
  have h1 := promiseTimeout_settleTime_le (innerConnect port env.connect)
    3000 (raceTimeoutMsg port) env.tieTimerFirst
  have h2 := innerConnect_time_le port env.connect
  omega

/-- On a connect-phase rejection the session resolves the failure report
with the socket destroyed and nothing encoded, written or logged. -/
theorem session_failure (code : Option String) (port : String)
    (env : SessionEnv) (e : String)
    (h : (promiseTimeout (innerConnect port env.connect) 3000
      (raceTimeoutMsg port) env.tieTimerFirst).outcome = Except.error e) :
    connectAndSendInternal code port env =
      { report := "Failed to connect or send on port " ++ port ++ ": " ++ e
        time := (promiseTimeout (innerConnect port env.connect) 3000
          (raceTimeoutMsg port) env.tieTimerFirst).settleTime
        encoderInvoked := false
        bytesWritten := none
        destroyedBeforeResolve := true
        logs := [] } := by
  unfold connectAndSendInternal sessionAfterRace
  rw [h]

/-- After a successful connect, a compression failure lands in the catch
block: socket destroyed, failure report resolved, nothing written. -/
theorem session_compressFail (code : Option String) (port : String)
    (env : SessionEnv) (u : Unit) (ce : String)
    (hr : (promiseTimeout (innerConnect port env.connect) 3000
      (raceTimeoutMsg port) env.tieTimerFirst).outcome = Except.ok u)
    (hreal : isRealPayload code = true)
    (hc : env.codecError = some ce) :
    connectAndSendInternal code port env =
      { report := "Failed to connect or send on port " ++ port ++ ": " ++
          ("Compression failed: " ++ ce)
        time := (promiseTimeout (innerConnect port env.connect) 3000
          (raceTimeoutMsg port) env.tieTimerFirst).settleTime
        encoderInvoked := true
        bytesWritten := none
        destroyedBeforeResolve := true
        logs := [] } := by
  unfold connectAndSendInternal sessionAfterRace
  rw [hr, hreal]
  simp [compressData, hc]

/-- After a successful connect with a real payload and a healthy codec the
session writes the compressed bytes and resolves the success report. -/
theorem session_success (code : Option String) (port : String)
    (env : SessionEnv) (u : Unit)
    (hr : (promiseTimeout (innerConnect port env.connect) 3000
      (raceTimeoutMsg port) env.tieTimerFirst).outcome = Except.ok u)
    (hreal : isRealPayload code = true)
    (hc : env.codecError = none) :
    connectAndSendInternal code port env =
      { report := "Successfully executed script on port: " ++ port
        time := (promiseTimeout (innerConnect port env.connect) 3000
          (raceTimeoutMsg port) env.tieTimerFirst).settleTime +
            min env.flushDelay 3000
        encoderInvoked := true
        bytesWritten := some (deflateStored (utf8Bytes (code.getD "")))
        destroyedBeforeResolve := false
        logs := ["Script sent to port " ++ port ++ " (" ++
          toString (deflateStored (utf8Bytes (code.getD ""))).length ++
          " bytes)"] } := by
  unfold connectAndSendInternal sessionAfterRace
  rw [hr, hreal]
  simp [compressData, hc]

/-- After a successful connect with the sentinel the session only ends the
socket and resolves the no-script success report. -/
theorem session_sentinel (code : Option String) (port : String)
    (env : SessionEnv) (u : Unit)
    (hr : (promiseTimeout (innerConnect port env.connect) 3000
      (raceTimeoutMsg port) env.tieTimerFirst).outcome = Except.ok u)
    (hreal : isRealPayload code = false) :
    connectAndSendInternal code port env =
      { report := "Successfully connected to Opiumware on port: " ++ port ++
          " (no script sent)"
        time := (promiseTimeout (innerConnect port env.connect) 3000
          (raceTimeoutMsg port) env.tieTimerFirst).settleTime
        encoderInvoked := false
        bytesWritten := none
        destroyedBeforeResolve := false
        logs := [] } := by
  unfold connectAndSendInternal sessionAfterRace
  rw [hr, hreal]
  simp

/-- C2: for every payload and port, whenever the send operation fails — on
any connection error, connect timeout (either mechanism) or compression
failure, which is exactly what `underlyingError` enumerates — it resolves
(it never rejects: every control path of the session ends in a resolved
trace) with the uniform failure report string, which embeds both the target
port and the underlying error message. -/
theorem sendResolvesFailureReport (code : Option String) (port : String)
    (env : SessionEnv) (e : String)
    (h : underlyingError code port env = some e) :
    (connectAndSendInternal code port env).report
      = "Failed to connect or send on port " ++ port ++ ": " ++ e ∧
    (∃ a b : String,
      (connectAndSendInternal code port env).report = a ++ port ++ b) ∧
    (∃ a : String, (connectAndSendInternal code port env).report = a ++ e) := by
  unfold underlyingError at h
  have hmain : (connectAndSendInternal code port env).report
      = "Failed to connect or send on port " ++ port ++ ": " ++ e := by
    cases hr : (promiseTimeout (innerConnect port env.connect) 3000
        (raceTimeoutMsg port) env.tieTimerFirst).outcome with
    | error e2 =>
      rw [hr] at h
      simp only [Option.some.injEq] at h
      rw [session_failure code port env e2 hr, h]
    | ok u =>
      rw [hr] at h
      by_cases hreal : isRealPayload code = true
      · rw [hreal] at h
        simp only [if_true] at h
        cases hc : env.codecError with
        | none => rw [hc] at h; simp at h
        | some ce =>
          rw [hc] at h
          simp only [Option.some.injEq] at h
          rw [session_compressFail code port env u ce hr hreal hc, h]
      · rw [eq_false_of_ne_true hreal] at h
        simp at h
  refine ⟨hmain, ⟨"Failed to connect or send on port ", ": " ++ e, ?_⟩,
    ⟨"Failed to connect or send on port " ++ port ++ ": ", hmain⟩⟩
  rw [hmain]
  simp [String.append_assoc]

/-- C3: every invocation of the send operation terminates in one of the two
terminal reports (Sent or Failed) and resolves: each wait is bounded by the
timeout budget (connect wait at most 3000 ms, post-connect write-flush wait
at most 3000 ms more — the socket's idle timeout destroys a stuck socket
and Node then invokes the pending write callback), every failure resolves
within the 3000 ms budget, and in particular a session whose connect
attempt gets no answer at all (no listener, `silent`) resolves a failure
report within the budget, never hangs. -/
theorem sendAlwaysTerminates (code : Option String) (port : String)
    (env : SessionEnv) :
    ((connectAndSendInternal code port env).time ≤ 6000) ∧
    ((∃ e, (connectAndSendInternal code port env).report
        = "Failed to connect or send on port " ++ port ++ ": " ++ e) ∨
      (connectAndSendInternal code port env).report
        = "Successfully executed script on port: " ++ port ∨
      (connectAndSendInternal code port env).report
        = "Successfully connected to Opiumware on port: " ++ port ++
            " (no script sent)") ∧
    (∀ e, underlyingError code port env = some e →
      (connectAndSendInternal code port env).time ≤ 3000) ∧
    (env.connect = ConnectEvent.silent →
      (∃ e, (connectAndSendInternal code port env).report
        = "Failed to connect or send on port " ++ port ++ ": " ++ e) ∧
      (connectAndSendInternal code port env).time ≤ 3000) := by
  have hst := connectRace_settleTime_le port env
  cases hr : (promiseTimeout (innerConnect port env.connect) 3000
      (raceTimeoutMsg port) env.tieTimerFirst).outcome with
  | error e2 =>
    rw [session_failure code port env e2 hr]
    exact ⟨by simp; omega, Or.inl ⟨e2, rfl⟩, fun e _ => by simp; omega,
      fun _ => ⟨⟨e2, rfl⟩, by simp; omega⟩⟩
  | ok u =>
    have hsil : env.connect ≠ ConnectEvent.silent := by
      intro hs
      rw [hs] at hr
      unfold promiseTimeout innerConnect at hr
      split at hr <;> simp_all
    by_cases hreal : isRealPayload code = true
    · cases hc : env.codecError with
      | some ce =>
        rw [session_compressFail code port env u ce hr hreal hc]
        exact ⟨by simp; omega, Or.inl ⟨"Compression failed: " ++ ce, rfl⟩,
          fun e _ => by simp; omega, fun hs => absurd hs hsil⟩
      | none =>
        rw [session_success code port env u hr hreal hc]
        refine ⟨by simp; omega, Or.inr (Or.inl rfl), ?_,
          fun hs => absurd hs hsil⟩
        intro e he
        unfold underlyingError at he
        rw [hr, hreal] at he
        simp only [if_true, hc] at he
        exact absurd he (by simp)
    · have hreal2 : isRealPayload code = false := eq_false_of_ne_true hreal
      rw [session_sentinel code port env u hr hreal2]
      refine ⟨by simp; omega, Or.inr (Or.inr rfl), ?_,
        fun hs => absurd hs hsil⟩
      intro e he
      unfold underlyingError at he
      rw [hr, hreal2] at he
      simp at he

/-- C6 (amended): per invocation exactly one of the operation's result or
the timeout error is observed — the side that settles first — but the
pending timer is never cancelled on the operation's completion path: its
callback always fires at `ms` (`clearTimeout` only runs inside that
callback itself, main.js line 93), so when the operation settles first the
timer is left pending until it expires. -/
theorem raceExactlyOneOutcome {α : Type} (inner : Nat × Except String α)
    (ms : Nat) (msg : String) (tie : Bool) :
    ((inner.1 < ms ∨ (inner.1 = ms ∧ tie = false)) →
      (promiseTimeout inner ms msg tie).outcome = inner.2 ∧
      (promiseTimeout inner ms msg tie).settleTime = inner.1) ∧
    (¬(inner.1 < ms ∨ (inner.1 = ms ∧ tie = false)) →
      (promiseTimeout inner ms msg tie).outcome = Except.error msg ∧
      (promiseTimeout inner ms msg tie).settleTime = ms) ∧
    (promiseTimeout inner ms msg tie).timerFiresAt = some ms := by
  unfold promiseTimeout
  by_cases h : inner.1 < ms ∨ (inner.1 = ms ∧ tie = false)
  · rw [if_pos h]
    exact ⟨fun _ => ⟨rfl, rfl⟩, fun hc => absurd h hc, rfl⟩
  · rw [if_neg h]
    exact ⟨fun hc => absurd hc h, fun _ => ⟨rfl, rfl⟩, rfl⟩

/-- Concrete run of the race used by the counterexample below. -/
def raceRun : RaceTrace Nat :=
  promiseTimeout ((0 : Nat), Except.ok (42 : Nat)) 3000
    "Connection to port 8392 timed out" false

/-- C6 counterexample: an operation that settles at 0 ms inside a 3000 ms
race wins the race, yet the timer is NOT cancelled on that completion path:
its callback still fires at 3000 ms, so a pending timer is left behind
after the race has settled. -/
theorem raceTimerNotCancelled :
    raceRun.outcome = Except.ok 42 ∧
    raceRun.settleTime = 0 ∧
    raceRun.timerFiresAt = some 3000 ∧
    timerPendingAfterSettle raceRun = true :=
  ⟨rfl, rfl, rfl, rfl⟩

/-! ## Concrete environments for witnesses and counterexamples -/

/-- A run whose connect succeeds immediately, with a healthy codec and an
immediate write flush. -/
def envOk : SessionEnv :=
  { connect := ConnectEvent.connected 0, tieTimerFirst := false,
    codecError := none, flushDelay := 0 }

/-- A run whose connect is refused at once. -/
def envRefused : SessionEnv :=
  { connect := ConnectEvent.errored 5 "connect ECONNREFUSED 127.0.0.1:8392",
    tieTimerFirst := false, codecError := none, flushDelay := 0 }

/-- A run whose connect attempt never gets an answer. -/
def envSilent : SessionEnv :=
  { connect := ConnectEvent.silent, tieTimerFirst := false,
    codecError := none, flushDelay := 0 }

/-- C5 (amended): when a send with a real payload connects and the write
flushes, the operation resolves with a success report that names the target
port — the byte count is not part of the resolved report; it is emitted
only in the console log line. -/
theorem realSendSuccessReport (code : String) (port : String)
    (env : SessionEnv) (t : Nat)
    (hreal : isRealPayload (some code) = true)
    (hconn : env.connect = ConnectEvent.connected t)
    (ht : t < 3000)
    (hc : env.codecError = none) :
    (connectAndSendInternal (some code) port env).report
      = "Successfully executed script on port: " ++ port ∧
    (∃ a b : String,
      (connectAndSendInternal (some code) port env).report = a ++ port ++ b) ∧
    (connectAndSendInternal (some code) port env).bytesWritten
      = some (deflateStored (utf8Bytes code)) ∧
    (connectAndSendInternal (some code) port env).logs
      = ["Script sent to port " ++ port ++ " (" ++
          toString (deflateStored (utf8Bytes code)).length ++ " bytes)"] := by
  have hr : (promiseTimeout (innerConnect port env.connect) 3000
      (raceTimeoutMsg port) env.tieTimerFirst).outcome = Except.ok () := by
    rw [hconn]
    simp [promiseTimeout, innerConnect, ht]
  rw [session_success (some code) port env () hr hreal hc]
  exact ⟨rfl, ⟨"Successfully executed script on port: ", "", by simp⟩,
    rfl, rfl⟩

/-- C5 counterexample: a concrete successful send of the one-byte payload
"A" on port 8392 — six compressed bytes go out, but the resolved success
report is exactly "Successfully executed script on port: 8392", which does
not contain the byte count "6" anywhere (the count appears only in the
console log). -/
theorem sendReportOmitsByteCount :
    (connectAndSendInternal (some "A") "8392" envOk).report
      = "Successfully executed script on port: 8392" ∧
    (connectAndSendInternal (some "A") "8392" envOk).bytesWritten
      = some [1, 1, 0, 254, 255, 65] ∧
    toString ([1, 1, 0, 254, 255, 65] : List Nat).length = "6" ∧
    strContains "Successfully executed script on port: 8392".toList
      "6".toList = false ∧
    (connectAndSendInternal (some "A") "8392" envOk).logs
      = ["Script sent to port 8392 (6 bytes)"] := by
  refine ⟨by decide, by decide, by decide, by decide, by decide⟩

/-- C7: for every sentinel code value — absent (`none`), the falsy empty
string, or the literal string "NULL" — the session never invokes the
payload encoder and never writes bytes to the socket; a run of it is
byte-for-byte the same as a run with no code at all (so a caller-intended
literal payload "NULL" is indistinguishable from the sentinel and never
transmitted); and when the connect succeeds it resolves the success report
noting no script was sent. -/
theorem sentinelSendsNothing (code : Option String) (port : String)
    (env : SessionEnv)
    (h : code = none ∨ code = some "" ∨ code = some "NULL") :
    (connectAndSendInternal code port env).encoderInvoked = false ∧
    (connectAndSendInternal code port env).bytesWritten = none ∧
    connectAndSendInternal code port env
      = connectAndSendInternal none port env ∧
    (∀ t : Nat, env.connect = ConnectEvent.connected t → t < 3000 →
      (connectAndSendInternal code port env).report
        = "Successfully connected to Opiumware on port: " ++ port ++
            " (no script sent)") := by
  have hreal : isRealPayload code = false := by
    rcases h with h | h | h <;> subst h <;> rfl
  have hnone : isRealPayload (none : Option String) = false := rfl
  have heq : connectAndSendInternal code port env
      = connectAndSendInternal none port env := by
    cases hr : (promiseTimeout (innerConnect port env.connect) 3000
        (raceTimeoutMsg port) env.tieTimerFirst).outcome with
    | error e2 =>
      rw [session_failure code port env e2 hr,
        session_failure none port env e2 hr]
    | ok u =>
      rw [session_sentinel code port env u hr hreal,
        session_sentinel none port env u hr hnone]
  refine ⟨?_, ?_, heq, ?_⟩
  · cases hr : (promiseTimeout (innerConnect port env.connect) 3000
        (raceTimeoutMsg port) env.tieTimerFirst).outcome with
    | error e2 => rw [session_failure code port env e2 hr]
    | ok u => rw [session_sentinel code port env u hr hreal]
  · cases hr : (promiseTimeout (innerConnect port env.connect) 3000
        (raceTimeoutMsg port) env.tieTimerFirst).outcome with
    | error e2 => rw [session_failure code port env e2 hr]
    | ok u => rw [session_sentinel code port env u hr hreal]
  · intro t hconn ht
    have hr : (promiseTimeout (innerConnect port env.connect) 3000
        (raceTimeoutMsg port) env.tieTimerFirst).outcome = Except.ok () := by
      rw [hconn]
      simp [promiseTimeout, innerConnect, ht]
    rw [session_sentinel code port env () hr hreal]

/-- C7 witness: a concrete sentinel send ("NULL") against a connecting
port resolves the no-script success report. -/
theorem sentinelSendsNothingWitness :
    (connectAndSendInternal (some "NULL") "8395" envOk).report
      = "Successfully connected to Opiumware on port: 8395 (no script sent)" :=
  (sentinelSendsNothing (some "NULL") "8395" envOk
    (Or.inr (Or.inr rfl))).2.2.2 0 rfl (by decide)

/-- C9: whenever a send attempt's connect phase fails — by either timeout
mechanism or by a connection-level error — the socket is destroyed before
the failure report resolves, and nothing else happened: nothing was
encoded, written or logged. -/
theorem failureDestroysSocket (code : Option String) (port : String)
    (env : SessionEnv) (e : String)
    (h : (promiseTimeout (innerConnect port env.connect) 3000
      (raceTimeoutMsg port) env.tieTimerFirst).outcome = Except.error e) :
    (connectAndSendInternal code port env).destroyedBeforeResolve = true ∧
    (connectAndSendInternal code port env).encoderInvoked = false ∧
    (connectAndSendInternal code port env).bytesWritten = none ∧
    (connectAndSendInternal code port env).logs = [] ∧
    (connectAndSendInternal code port env).report
      = "Failed to connect or send on port " ++ port ++ ": " ++ e := by
  rw [session_failure code port env e h]
  exact ⟨rfl, rfl, rfl, rfl, rfl⟩

/-- C9 witness: a send against a silent port (no listener answer) times out
at the socket's own 3000 ms timeout and the socket is destroyed before the
failure report resolves. -/
theorem failureDestroysSocketWitness :
    (connectAndSendInternal none "8396" envSilent).destroyedBeforeResolve
      = true :=
  (failureDestroysSocket none "8396" envSilent
    "Connection attempt to port 8396 timed out." rfl).1

/-- C2 witness: a send refused at once resolves the failure report
embedding the port and the error message. -/
theorem sendResolvesFailureReportWitness :
    (connectAndSendInternal none "8392" envRefused).report
      = "Failed to connect or send on port 8392: connect ECONNREFUSED 127.0.0.1:8392" :=
  (sendResolvesFailureReport none "8392" envRefused
    "connect ECONNREFUSED 127.0.0.1:8392" (by decide)).1

/-- C5 witness: a concrete real-payload send resolves the success report
naming the port. -/
theorem realSendSuccessReportWitness :
    (connectAndSendInternal (some "A") "8393" envOk).report
      = "Successfully executed script on port: 8393" :=
  (realSendSuccessReport "A" "8393" envOk 0 (by decide) rfl (by decide)
    rfl).1

/-! ## Autodiscovery theorems -/

/-- When every port of the list fails the scan attempts them all, in
order, and returns the failure sentinel. -/
theorem autoAttachGo_allFail (env : String → SessionEnv) :
    ∀ ps : List String, (∀ p ∈ ps, attemptOk env p = false) →
    autoAttachGo env ps = ("Failed to connect on all ports", ps) := by
  intro ps
  induction ps with
  | nil => intro _; rfl
  | cons p rest ih =>
    intro h
    have hp : attemptOk env p = false := h p (List.mem_cons_self p rest)
    have hrest := ih (fun q hq => h q (List.mem_cons_of_mem p hq))
    simp [autoAttachGo, hp, hrest]

/-- The first succeeding port short-circuits the scan: the ports before it
are attempted and fail, it is attempted and returned, and no later port is
attempted. -/
theorem autoAttachGo_firstSuccess (env : String → SessionEnv) :
    ∀ (ps : List String) (i : Fin ps.length),
    attemptOk env (ps.get i) = true →
    (∀ j : Fin ps.length, (j : Nat) < (i : Nat) →
      attemptOk env (ps.get j) = false) →
    autoAttachGo env ps = (ps.get i, ps.take ((i : Nat) + 1)) := by
  intro ps
  induction ps with
  | nil => intro i; exact absurd i.isLt (by simp)
  | cons p rest ih =>
    intro i hi hjs
    cases i using Fin.cases with
    | zero =>
      simp only [List.get] at hi
      simp [autoAttachGo, hi]
    | succ i0 =>
      have hp : attemptOk env p = false := by
        have := hjs ⟨0, by simp⟩ (by simp)
        simpa using this
      have hrest := ih i0 (by simpa using hi)
        (fun j hj => by
          have := hjs j.succ (by simpa using hj)
          simpa using this)
      simp [autoAttachGo, hp, hrest]

/-- C1: auto-attach scans exactly the fixed port list 8392..8397 in that
order, sequentially probing each with the "NULL" sentinel send; it returns
the first port whose attempt resolves a success report, having attempted
exactly the ports up to and including it; if every candidate fails it
attempts all six and returns the sentinel "Failed to connect on all
ports", which differs from every valid (all-digit) port string. -/
theorem autoAttachScansInOrder (env : String → SessionEnv) :
    PORTS = ["8392", "8393", "8394", "8395", "8396", "8397"] ∧
    ((∀ p ∈ PORTS, attemptOk env p = false) →
      autoAttach env = ("Failed to connect on all ports", PORTS)) ∧
    (∀ i : Fin PORTS.length, attemptOk env (PORTS.get i) = true →
      (∀ j : Fin PORTS.length, (j : Nat) < (i : Nat) →
        attemptOk env (PORTS.get j) = false) →
      autoAttach env = (PORTS.get i, PORTS.take ((i : Nat) + 1))) ∧
    (∀ p : String, p.toList.all Char.isDigit = true →
      ("Failed to connect on all ports" : String) ≠ p) := by
  refine ⟨rfl, ?_, ?_, ?_⟩
  · intro h
    exact autoAttachGo_allFail env PORTS h
  · intro i hi hjs
    exact autoAttachGo_firstSuccess env PORTS i hi hjs
  · intro p hd he
    rw [← he] at hd
    exact absurd hd (by decide)

/-! ## Port probe theorems -/

/-- C8: checkPortLive resolves `true` exactly when the connection succeeds
within the 1000 ms budget (the first socket event inside the budget is
`connect`), destroying the socket immediately; it resolves `false`, at the
event's time, on a connection error, and `false` at 1000 ms when no event
lands inside the budget (timeout); the error cause is never part of the
resolved value. -/
theorem checkPortLiveSpec (events : List (Nat × ProbeEv)) :
    ((∃ t, events.find? (fun e => decide (e.1 < 1000))
        = some (t, ProbeEv.connected)) ↔
      (checkPortStatus events).result = true) ∧
    (∀ t, events.find? (fun e => decide (e.1 < 1000))
        = some (t, ProbeEv.connected) →
      checkPortStatus events = ⟨true, t, true⟩) ∧
    (∀ t msg, events.find? (fun e => decide (e.1 < 1000))
        = some (t, ProbeEv.errored msg) →
      checkPortStatus events = ⟨false, t, true⟩) ∧
    (events.find? (fun e => decide (e.1 < 1000)) = none →
      checkPortStatus events = ⟨false, 1000, true⟩) ∧
    (checkPortStatus events).destroyedBeforeResolve = true := by
  cases hf : events.find? (fun e => decide (e.1 < 1000)) with
  | none =>
    unfold checkPortStatus
    rw [hf]
    exact ⟨⟨fun ⟨t, ht⟩ => by simp at ht, fun h => by simp at h⟩,
      fun t ht => by simp at ht, fun t msg ht => by simp at ht,
      fun _ => rfl, rfl⟩
  | some te =>
    obtain ⟨t0, ev⟩ := te
    unfold checkPortStatus
    rw [hf]
    cases ev with
    | connected =>
      exact ⟨⟨fun _ => rfl, fun _ => ⟨t0, rfl⟩⟩,
        fun t ht => by simp_all [verdict], fun t msg ht => by simp_all,
        fun h => by simp at h, rfl⟩
    | errored msg0 =>
      refine ⟨⟨fun ⟨t, ht⟩ => by simp_all, fun h => by simp [verdict] at h⟩,
        fun t ht => by simp_all, fun t msg ht => by simp_all [verdict],
        fun h => by simp at h, rfl⟩
    | idleTimeout =>
      refine ⟨⟨fun ⟨t, ht⟩ => by simp_all, fun h => by simp [verdict] at h⟩,
        fun t ht => by simp_all, fun t msg ht => by simp_all,
        fun h => by simp at h, rfl⟩

/-- C10: the probe settles exactly once and always with a boolean: with all
three once-handlers armed, the first socket event determines the single
settled value (the head of the resolve-call list), unchanged by whatever
events fire afterwards; the connect handler fires at most once (at most one
`resolve(true)`), and overall at most one resolve call per handler ever
happens. -/
theorem probeSettlesOnce (e : ProbeEv) (rest : List ProbeEv) :
    (onceCalls (e :: rest) true true true).head? = some (verdict e) ∧
    (∀ rest' : List ProbeEv,
      (onceCalls (e :: rest) true true true).head?
        = (onceCalls (e :: rest') true true true).head?) ∧
    (∀ evs : List ProbeEv, ∀ c er t : Bool,
      (onceCalls evs c er t).count true ≤ (if c then 1 else 0)) ∧
    (∀ evs : List ProbeEv, ∀ c er t : Bool,
      (onceCalls evs c er t).length ≤
        (if c then 1 else 0) + (if er then 1 else 0) + (if t then 1 else 0)) := by
  have hcount : ∀ evs : List ProbeEv, ∀ c er t : Bool,
      (onceCalls evs c er t).count true ≤ (if c then 1 else 0) := by
    intro evs
    induction evs with
    | nil => intro c er t; simp [onceCalls]
    | cons ev rest ih =>
      intro c er t
      cases ev with
      | connected =>
        have h2 := ih false er t
        cases c <;> simp [onceCalls] <;> simp at h2 <;> omega
      | errored msg =>
        have h2 := ih c false t
        cases er <;> cases c <;> simp [onceCalls] <;> simp at h2 <;> omega
      | idleTimeout =>
        have h2 := ih c er false
        cases t <;> cases c <;> simp [onceCalls] <;> simp at h2 <;> omega
  have hlen : ∀ evs : List ProbeEv, ∀ c er t : Bool,
      (onceCalls evs c er t).length ≤
        (if c then 1 else 0) + (if er then 1 else 0) + (if t then 1 else 0) := by
    intro evs
    induction evs with
    | nil => intro c er t; simp [onceCalls]
    | cons ev rest ih =>
      intro c er t
      cases ev with
      | connected =>
        have h2 := ih false er t
        cases c <;> simp [onceCalls] <;> simp at h2 <;> omega
      | errored msg =>
        have h2 := ih c false t
        cases er <;> simp [onceCalls] <;> simp at h2 <;> omega
      | idleTimeout =>
        have h2 := ih c er false
        cases t <;> simp [onceCalls] <;> simp at h2 <;> omega
  refine ⟨?_, ?_, hcount, hlen⟩
  · cases e <;> simp [onceCalls, verdict]
  · intro rest'
    cases e <;> simp [onceCalls, verdict]
